import Mathlib

/-!
Verification of the deployment bootstrap and status-polling workflow of the
fastapi-sample-testing repository.

The embedding covers:
- the variant-B deployment script (scripts/deploy-no-docker.sh): stack
  existence probe, conditional registry-only bootstrap deploy, repository-URI
  precondition, the CodeBuild status polling loop, the full-stack deploy and
  the service-URL report;
- the CDK application entry point (infra/bin/app.ts): environment resolution,
  context handling, per-environment stack instantiation;
- the AppRunnerStack construct (infra/lib/stacks/apprunner-stack.ts): ECR
  repository, conditional App Runner service with IAM roles, runtime
  environment variables, optional secret bindings and stack outputs.

External cloud state (CloudFormation responses, CodeBuild statuses, stack
outputs) is modelled as inputs; the workflow is a function from those inputs
to the list of provisioning actions it performs and its exit code.

String primitives of the Lean library that do not reduce in the kernel
(String.toLower, String.startsWith, substring search) are re-implemented over
the character list so that every definition evaluates by decide or rfl.
-/

/-- Lowercasing of a string, character by character. Models the TypeScript
`id.toLowerCase()` used for the ECR repository name. -/
def lowerString (s : String) : String := String.mk (s.data.map Char.toLower)

/-- Whether `s` starts with `p`. Models the TypeScript `environment.startsWith("preview-")`. -/
def strStartsWith (s p : String) : Bool := p.data.isPrefixOf s.data

/-- Whether the character list `pat` occurs contiguously inside `l`. -/
def hasSublist : List Char → List Char → Bool
  | l, pat =>
    if pat.isPrefixOf l then true
    else
      match l with
      | [] => false
      | _ :: t => hasSublist t pat

/-- Whether `pat` occurs as a substring of `s`. Models the bash pattern match
`[[ "$x" == *"pat"* ]]`. -/
def containsText (s pat : String) : Bool := hasSublist s.data pat.data

/-! ## The CodeBuild status polling loop (scripts/deploy-no-docker.sh, lines 203-222) -/

/-- What one iteration of the polling loop does after querying the build status. -/
inductive PollCommand
  | exitSuccess
  | exitFailure
  | wait (echoMsg : String) (sleepSeconds : Nat)
deriving DecidableEq, Repr

/-- One iteration of the poll loop body, as a function of the queried
BUILD_STATUS string:
break on SUCCEEDED; exit 1 on FAILED, FAULT, TIMED_OUT or STOPPED;
otherwise echo the status and sleep 10 seconds before re-querying. -/
def pollStep (status : String) : PollCommand :=
  if status = "SUCCEEDED" then PollCommand.exitSuccess
  else if status = "FAILED" ∨ status = "FAULT" ∨ status = "TIMED_OUT" ∨ status = "STOPPED" then
    PollCommand.exitFailure
  else PollCommand.wait ("Build status: " ++ status ++ " (waiting...)") 10

/-- Whether the loop exits (by break or by process exit) on a given status. -/
def pollExits (status : String) : Bool :=
  match pollStep status with
  | PollCommand.wait _ _ => false
  | _ => true

/-- Result of running the polling loop for a bounded number of queries. -/
inductive PollResult
  | success
  | failure (status : String)
  | running
deriving DecidableEq, Repr

/-- Observable actions of the deployment workflow that the claims are about. -/
inductive WorkflowAction
  | cdkDeployRegistryOnly
  | cdkDeployFullStack
  | startRemoteBuild
  | sleepSecs (n : Nat)
  | echo (msg : String)
deriving DecidableEq, Repr

/-- The polling loop, run on the stream of statuses returned by successive
queries, starting at query index `i`, for at most `fuel` queries. Returns the
actions performed and the loop outcome (`running` when `fuel` queries were
not enough to reach a terminal status). -/
def pollLoop (statuses : Nat → String) : Nat → Nat → List WorkflowAction × PollResult
  | _, 0 => ([], PollResult.running)
  | i, fuel + 1 =>
    match pollStep (statuses i) with
    | PollCommand.exitSuccess =>
        ([WorkflowAction.echo "Build completed successfully!"], PollResult.success)
    | PollCommand.exitFailure =>
        ([WorkflowAction.echo ("Build failed with status: " ++ statuses i)],
          PollResult.failure (statuses i))
    | PollCommand.wait m t =>
        let rest := pollLoop statuses (i + 1) fuel
        (WorkflowAction.echo m :: WorkflowAction.sleepSecs t :: rest.1, rest.2)

/-! ## The variant-B workflow from the stack probe onwards
(scripts/deploy-no-docker.sh, lines 36-252; the identical probe, bootstrap,
repository-URI and report logic also appears in scripts/deploy.sh). -/

/-- External responses consumed by one run of the workflow. -/
structure BuildWorld where
  stackProbeResponse : String
  repositoryUri : String
  buildStatuses : Nat → String
  serviceUrlResponse : String

/-- Trace of actions performed and the exit code; `none` means the run is
still inside the polling loop after the modelled number of queries. -/
structure RunOutcome where
  trace : List WorkflowAction
  exitCode : Option Nat
deriving Repr

/-- Classification of the captured describe-stacks response: the bootstrap
branch fires when the response contains the text "does not exist" or is the
sentinel "NONE" echoed when the query command fails without output. -/
def stackNotFound (resp : String) : Bool :=
  containsText resp "does not exist" || resp == "NONE"

/-- The conditional registry-only bootstrap deploy
(`cdk deploy --context createService=false`). -/
def bootstrapActions (resp : String) : List WorkflowAction :=
  if stackNotFound resp then [WorkflowAction.cdkDeployRegistryOnly] else []

/-- The informational message printed when the service URL output is absent. -/
def serviceUrlNote : String :=
  "Note: Service URL not available yet. Check AWS Console for status."

/-- The final report: the service URL when the captured output is non-empty
and not the sentinel "None", the informational note otherwise. -/
def serviceReport (resp : String) : List WorkflowAction :=
  if resp ≠ "" ∧ resp ≠ "None" then
    [WorkflowAction.echo ("Service URL: " ++ resp)]
  else
    [WorkflowAction.echo serviceUrlNote]

/-- Actions performed before the polling loop once the repository URI check
passed: the conditional bootstrap, the repository echo and the remote build
submission. -/
def preActions (w : BuildWorld) : List WorkflowAction :=
  bootstrapActions w.stackProbeResponse ++
    [WorkflowAction.echo ("ECR Repository: " ++ w.repositoryUri),
      WorkflowAction.startRemoteBuild]

/-- The variant-B workflow from the stack-existence probe onwards: probe
classification and conditional bootstrap; fatal check that the repository
URI output is present; remote build submission and the polling loop; on
build success the full-stack deploy and the service-URL report (exit 0), on
build failure exit 1. `fuel` bounds the number of modelled status queries. -/
def runVariantB (w : BuildWorld) (fuel : Nat) : RunOutcome :=
  if w.repositoryUri = "None" ∨ w.repositoryUri = "" then
    { trace := bootstrapActions w.stackProbeResponse ++
        [WorkflowAction.echo "Error: Could not retrieve ECR repository URI"],
      exitCode := some 1 }
  else
    match (pollLoop w.buildStatuses 0 fuel).2 with
    | PollResult.running =>
        { trace := preActions w ++ (pollLoop w.buildStatuses 0 fuel).1, exitCode := none }
    | PollResult.failure _ =>
        { trace := preActions w ++ (pollLoop w.buildStatuses 0 fuel).1, exitCode := some 1 }
    | PollResult.success =>
        { trace := preActions w ++ (pollLoop w.buildStatuses 0 fuel).1 ++
            [WorkflowAction.cdkDeployFullStack,
              WorkflowAction.echo "Deployment complete!"] ++
            serviceReport w.serviceUrlResponse,
          exitCode := some 0 }

/-! ## The AppRunnerStack construct (infra/lib/stacks/apprunner-stack.ts) -/

/-- A named runtime value bound on the App Runner service (also used for the
per-key secret bindings). -/
structure EnvVar where
  name : String
  value : String
deriving DecidableEq, Repr, Inhabited

/-- Opaque model of the CloudFormation token `repository.repositoryUri`. -/
def repositoryUriToken (repositoryName : String) : String :=
  "TOKEN.EcrRepositoryUri." ++ repositoryName

/-- Opaque model of the CloudFormation token `service.attrServiceUrl`. -/
def serviceUrlToken (serviceName : String) : String :=
  "TOKEN.AppRunnerServiceUrl." ++ serviceName

/-- The synthesized App Runner service declaration (the CfnService resource). -/
structure ServiceDecl where
  serviceName : String
  imageIdentifier : String
  port : String
  runtimeEnvironmentVariables : List EnvVar
  runtimeEnvironmentSecrets : Option (List EnvVar)
  cpu : String
  memory : String
  healthCheckPath : String
deriving DecidableEq, Repr, Inhabited

/-- The synthesized contents of one AppRunnerStack. -/
structure SynthesizedStack where
  repositoryName : String
  repositoryMaxImageCount : Nat
  hasInstanceRole : Bool
  hasAccessRole : Bool
  grantsSecretRead : Bool
  service : Option ServiceDecl
  serviceUrl : String
  outputKeys : List String
deriving DecidableEq, Repr, Inhabited

/-- Props of AppRunnerStack, with the destructuring defaults of the construct. -/
structure AppRunnerStackProps where
  environment : String
  cpu : String := "1 vCPU"
  memory : String := "2 GB"
  port : Nat := 8080
  environmentVariables : List EnvVar := []
  secretsArn : Option String := none
  createService : Bool := true
deriving Repr, Inhabited

/-- JavaScript truthiness of the optional secretsArn string: an absent value
and the empty string are falsy. -/
def truthyArn : Option String → Bool
  | none => false
  | some s => !(s == "")

/-- The four per-key secret bindings added when a secrets ARN is configured. -/
def mysqlSecretBindings (arn : String) : List EnvVar :=
  [EnvVar.mk "MYSQL_USER" (arn ++ ":MYSQL_USER::"),
    EnvVar.mk "MYSQL_PASSWORD" (arn ++ ":MYSQL_PASSWORD::"),
    EnvVar.mk "MYSQL_HOST" (arn ++ ":MYSQL_HOST::"),
    EnvVar.mk "MYSQL_DATABASE" (arn ++ ":MYSQL_DATABASE::")]

/-- The CfnService declaration built inside the createService branch:
port and the ENVIRONMENT and PORT variables followed by the configured
environmentVariables entries; the runtimeEnvironmentSecrets block only when
a (truthy) secrets ARN is provided. -/
def serviceDeclOf (id : String) (props : AppRunnerStackProps) : ServiceDecl :=
  { serviceName := id
    imageIdentifier := repositoryUriToken (lowerString id) ++ ":latest"
    port := toString props.port
    runtimeEnvironmentVariables :=
      EnvVar.mk "ENVIRONMENT" props.environment ::
        EnvVar.mk "PORT" (toString props.port) :: props.environmentVariables
    runtimeEnvironmentSecrets :=
      match props.secretsArn with
      | none => none
      | some arn => if arn = "" then none else some (mysqlSecretBindings arn)
    cpu := props.cpu
    memory := props.memory
    healthCheckPath := "/health" }

/-- Synthesis of one AppRunnerStack: always the ECR repository (named by the
lowercased stack id, lifecycle rule keeping the last 25 images) and the
RepositoryUri output; when createService is set, additionally the instance
and access IAM roles, the secret read grant when an ARN is provided, the
App Runner service and the ServiceUrl and ServiceId outputs. -/
def appRunnerStack (id : String) (props : AppRunnerStackProps) : SynthesizedStack :=
  let repositoryName := lowerString id
  if props.createService then
    { repositoryName := repositoryName
      repositoryMaxImageCount := 25
      hasInstanceRole := true
      hasAccessRole := true
      grantsSecretRead := truthyArn props.secretsArn
      service := some (serviceDeclOf id props)
      serviceUrl := "https://" ++ serviceUrlToken id
      outputKeys := ["ServiceUrl", "ServiceId", "RepositoryUri"] }
  else
    { repositoryName := repositoryName
      repositoryMaxImageCount := 25
      hasInstanceRole := false
      hasAccessRole := false
      grantsSecretRead := false
      service := none
      serviceUrl := ""
      outputKeys := ["RepositoryUri"] }

/-! ## The CDK application entry point (infra/bin/app.ts) -/

/-- Context values given to the CDK app (cdk deploy --context k=v); every
value arrives as a string, absent keys as none. -/
structure AppContext where
  environment : Option String := none
  createService : Option String := none
  secretsArn : Option String := none
  pipelineOnly : Option String := none
deriving Repr

/-- Default environment name: "preview-" plus the resolved user identity,
or the literal "preview-local" when identity resolution throws. -/
def getDefaultEnvironment (identity : Option String) : String :=
  match identity with
  | some u => "preview-" ++ u
  | none => "preview-local"

/-- The JavaScript `a || b` chain on an optional string: the empty string is
falsy and falls through to the default. -/
def jsOrElse (v : Option String) (dflt : String) : String :=
  match v with
  | some s => if s = "" then dflt else s
  | none => dflt

/-- Resolution of the target environment: the explicit context value when
present (and non-empty), the identity-derived default otherwise. -/
def resolveEnvironment (ctxEnv : Option String) (identity : Option String) : String :=
  jsOrElse ctxEnv (getDefaultEnvironment identity)

/-- The environmentVariables prop passed to every AppRunnerStack by app.ts. -/
def defaultAppEnvironmentVariables : List EnvVar :=
  [EnvVar.mk "NODE_ENV" "production", EnvVar.mk "LOG_LEVEL" "info"]

/-- The per-environment stacks instantiated by app.ts, keyed by stack id:
none in pipeline-only mode; a single stack honouring the createService and
secretsArn context for a preview-* environment; otherwise the dev and prod
stacks, both with createService hardcoded to true and no secrets ARN. -/
def appStacks (ctx : AppContext) (identity : Option String) : List (String × SynthesizedStack) :=
  let environment := resolveEnvironment ctx.environment identity
  let createService := !(ctx.createService == some "false")
  let pipelineOnly := ctx.pipelineOnly == some "true"
  if pipelineOnly then []
  else if strStartsWith environment "preview-" then
    [("FastApiRunner-" ++ environment,
      appRunnerStack ("FastApiRunner-" ++ environment)
        { environment := environment
          cpu := "1 vCPU"
          memory := "2 GB"
          port := 8080
          environmentVariables := defaultAppEnvironmentVariables
          secretsArn := ctx.secretsArn
          createService := createService })]
  else
    [("FastApiRunner-dev",
      appRunnerStack "FastApiRunner-dev"
        { environment := "dev"
          cpu := "1 vCPU"
          memory := "2 GB"
          port := 8080
          environmentVariables := defaultAppEnvironmentVariables
          secretsArn := none
          createService := true }),
      ("FastApiRunner-prod",
        appRunnerStack "FastApiRunner-prod"
          { environment := "prod"
            cpu := "1 vCPU"
            memory := "2 GB"
            port := 8080
            environmentVariables := defaultAppEnvironmentVariables
            secretsArn := none
            createService := true })]

/-! ## Status sets and concrete inputs referenced by the claims -/

/-- The terminal status set asserted by the specification. -/
def claimedTerminalStatuses : List String :=
  ["SUCCEEDED", "FAILED", "FAULTED", "TIMED_OUT", "STOPPED"]

/-- The terminal status set actually tested by the script. -/
def codeTerminalStatuses : List String :=
  ["SUCCEEDED", "FAILED", "FAULT", "TIMED_OUT", "STOPPED"]

/-- The claim that the loop exit statuses are exactly the specified set. -/
def pollExitMatchesClaimedSet : Prop :=
  ∀ s : String, pollExits s = true ↔ s ∈ claimedTerminalStatuses

/-- A status stream on which no query ever returns a terminal status. -/
def inProgressStream : Nat → String := fun _ => "IN_PROGRESS"

/-- Context of the first bootstrap deploy of scripts/deploy.sh dev:
explicit environment dev, createService suppressed. -/
def devBootstrapContext : AppContext :=
  { environment := some "dev", createService := some "false",
    secretsArn := none, pipelineOnly := none }

/-- Context of a preview deploy without a secrets ARN. -/
def previewNoSecretsContext : AppContext :=
  { environment := some "preview-ci", createService := none,
    secretsArn := none, pipelineOnly := none }

/-- Names of the runtime environment variables of the synthesized service. -/
def serviceEnvNames (st : SynthesizedStack) : List String :=
  match st.service with
  | some svc => svc.runtimeEnvironmentVariables.map EnvVar.name
  | none => []

/-- Props of the preview stack as instantiated by app.ts without a secrets ARN. -/
def previewProps : AppRunnerStackProps :=
  { environment := "preview-ci", cpu := "1 vCPU", memory := "2 GB", port := 8080,
    environmentVariables := defaultAppEnvironmentVariables,
    secretsArn := none, createService := true }

/-- Props of a registry-only (bootstrap) stack instantiation. -/
def registryOnlyProps : AppRunnerStackProps :=
  { environment := "preview-ci", cpu := "1 vCPU", memory := "2 GB", port := 8080,
    environmentVariables := defaultAppEnvironmentVariables,
    secretsArn := none, createService := false }

/-- A world whose repository-URI query returns the sentinel "None". -/
def noRepoWorld : BuildWorld :=
  { stackProbeResponse := "NONE", repositoryUri := "None",
    buildStatuses := fun _ => "IN_PROGRESS", serviceUrlResponse := "" }

/-- A world whose remote build fails on the first status query. -/
def failWorld : BuildWorld :=
  { stackProbeResponse := "NONE",
    repositoryUri := "ecr.example.com/fastapirunner-dev",
    buildStatuses := fun _ => "FAILED", serviceUrlResponse := "" }

/-- A world whose remote build succeeds on the first status query and whose
service-URL query returns the empty string. -/
def okWorld : BuildWorld :=
  { stackProbeResponse := "Stacks: FastApiRunner-dev",
    repositoryUri := "ecr.example.com/fastapirunner-dev",
    buildStatuses := fun _ => "SUCCEEDED", serviceUrlResponse := "" }

theorem pollStep_eq_success (s : String) (h : s = "SUCCEEDED") :
    pollStep s = PollCommand.exitSuccess := by
  unfold pollStep
  rw [if_pos h]

theorem pollStep_eq_failure (s : String) (h1 : ¬ s = "SUCCEEDED")
    (h2 : s = "FAILED" ∨ s = "FAULT" ∨ s = "TIMED_OUT" ∨ s = "STOPPED") :
    pollStep s = PollCommand.exitFailure := by
  unfold pollStep
  rw [if_neg h1, if_pos h2]

theorem pollStep_eq_wait (s : String) (h1 : ¬ s = "SUCCEEDED")
    (h2 : ¬ (s = "FAILED" ∨ s = "FAULT" ∨ s = "TIMED_OUT" ∨ s = "STOPPED")) :
    pollStep s = PollCommand.wait ("Build status: " ++ s ++ " (waiting...)") 10 := by
  unfold pollStep
  rw [if_neg h1, if_neg h2]

theorem pollExits_iff (s : String) :
    pollExits s = true ↔
      (s = "SUCCEEDED" ∨ s = "FAILED" ∨ s = "FAULT" ∨ s = "TIMED_OUT" ∨ s = "STOPPED") := by
  by_cases h1 : s = "SUCCEEDED"
  · subst h1
    simp [pollExits, pollStep]
  · by_cases h2 : s = "FAILED" ∨ s = "FAULT" ∨ s = "TIMED_OUT" ∨ s = "STOPPED"
    · simp [pollExits, pollStep_eq_failure s h1 h2]
      tauto
    · simp [pollExits, pollStep_eq_wait s h1 h2]
      tauto

theorem pollStep_eq_wait_of_not_exit (s : String) (h : pollExits s = false) :
    pollStep s = PollCommand.wait ("Build status: " ++ s ++ " (waiting...)") 10 := by
  by_cases h1 : s = "SUCCEEDED"
  · rw [pollExits, pollStep_eq_success s h1] at h
    cases h
  · by_cases h2 : s = "FAILED" ∨ s = "FAULT" ∨ s = "TIMED_OUT" ∨ s = "STOPPED"
    · rw [pollExits, pollStep_eq_failure s h1 h2] at h
      cases h
    · exact pollStep_eq_wait s h1 h2

theorem pollLoop_actions (statuses : Nat → String) :
    ∀ fuel i a, a ∈ (pollLoop statuses i fuel).1 →
      (∃ m, a = WorkflowAction.echo m) ∨ ∃ n, a = WorkflowAction.sleepSecs n := by
  intro fuel
  induction fuel with
  | zero =>
    intro i a ha
    simp [pollLoop] at ha
  | succ n ih =>
    intro i a ha
    rw [pollLoop] at ha
    cases hps : pollStep (statuses i) with
    | exitSuccess =>
      rw [hps] at ha
      simp at ha
      exact Or.inl ⟨_, ha⟩
    | exitFailure =>
      rw [hps] at ha
      simp at ha
      exact Or.inl ⟨_, ha⟩
    | wait m t =>
      rw [hps] at ha
      simp at ha
      rcases ha with ha | ha | ha
      · exact Or.inl ⟨m, ha⟩
      · exact Or.inr ⟨t, ha⟩
      · exact ih (i + 1) a ha

theorem pollLoop_no_deploys (statuses : Nat → String) (fuel i : Nat) :
    WorkflowAction.cdkDeployRegistryOnly ∉ (pollLoop statuses i fuel).1 ∧
    WorkflowAction.cdkDeployFullStack ∉ (pollLoop statuses i fuel).1 ∧
    WorkflowAction.startRemoteBuild ∉ (pollLoop statuses i fuel).1 := by
  refine ⟨?_, ?_, ?_⟩ <;> intro hmem <;>
    rcases pollLoop_actions statuses fuel i _ hmem with ⟨m, hm⟩ | ⟨n, hn⟩ <;>
    simp_all

theorem mem_preActions (w : BuildWorld) (a : WorkflowAction) (ha : a ∈ preActions w) :
    a = WorkflowAction.cdkDeployRegistryOnly ∨ a = WorkflowAction.startRemoteBuild ∨
      ∃ m, a = WorkflowAction.echo m := by
  unfold preActions bootstrapActions at ha
  rcases List.mem_append.1 ha with hb | hr
  · split at hb
    · simp at hb
      exact Or.inl hb
    · simp at hb
  · simp at hr
    rcases hr with h | h
    · exact Or.inr (Or.inr ⟨_, h⟩)
    · exact Or.inr (Or.inl h)

/-- C1: the claim that the loop exits exactly on SUCCEEDED, FAILED, FAULTED,
TIMED_OUT, STOPPED is false: the script tests the status text FAULT, so on
the status FAULTED the loop does not exit. -/
theorem C1_counterexample : ¬ pollExitMatchesClaimedSet := by
  intro h
  have h1 : pollExits "FAULTED" = true := (h "FAULTED").mpr (by decide)
  have h2 : pollExits "FAULTED" = false := by decide
  rw [h1] at h2
  cases h2

/-- C1 (amended): the polling loop exits if and only if the queried status is
one of SUCCEEDED, FAILED, FAULT, TIMED_OUT, STOPPED; on every other status it
echoes the status and sleeps the fixed 10-second interval before re-querying. -/
theorem C1_poll_exit_amended (s : String) :
    (pollExits s = true ↔ s ∈ codeTerminalStatuses) ∧
    (s ∉ codeTerminalStatuses →
      pollStep s = PollCommand.wait ("Build status: " ++ s ++ " (waiting...)") 10) := by
  have hiff := pollExits_iff s
  have hmem : s ∈ codeTerminalStatuses ↔
      (s = "SUCCEEDED" ∨ s = "FAILED" ∨ s = "FAULT" ∨ s = "TIMED_OUT" ∨ s = "STOPPED") := by
    simp [codeTerminalStatuses]
  constructor
  · rw [hiff, hmem]
  · intro hns
    rcases Bool.eq_false_or_eq_true (pollExits s) with hpe | hpe
    · exact absurd (hmem.mpr (hiff.mp hpe)) hns
    · exact pollStep_eq_wait_of_not_exit s hpe

/-- C1 witness: the non-terminal status IN_PROGRESS makes the loop echo and
sleep 10 seconds. -/
theorem C1_witness :
    pollStep "IN_PROGRESS" =
      PollCommand.wait ("Build status: " ++ "IN_PROGRESS" ++ " (waiting...)") 10 :=
  (C1_poll_exit_amended "IN_PROGRESS").2 (by decide)

/-- C9: the polling loop has no iteration bound: on a status stream that
never returns an exiting status, the loop is still running after any number
of queries. -/
theorem C9_poll_loop_unbounded (statuses : Nat → String)
    (h : ∀ i, pollExits (statuses i) = false) :
    ∀ fuel i, (pollLoop statuses i fuel).2 = PollResult.running := by
  intro fuel
  induction fuel with
  | zero => intro i; rfl
  | succ n ih =>
    intro i
    rw [pollLoop, pollStep_eq_wait_of_not_exit (statuses i) (h i)]
    exact ih (i + 1)

/-- C9 witness: on the constant IN_PROGRESS stream the loop is still running
after seven queries. -/
theorem C9_witness : (pollLoop inProgressStream 0 7).2 = PollResult.running :=
  C9_poll_loop_unbounded inProgressStream (fun _ => rfl) 7 0

/-- C3: the registry-only bootstrap deploy is executed if and only if the
probe response contains the text "does not exist" or equals the sentinel
NONE; on any other response the bootstrap step is skipped. -/
theorem C3_bootstrap_iff_not_found (w : BuildWorld) (fuel : Nat) :
    WorkflowAction.cdkDeployRegistryOnly ∈ (runVariantB w fuel).trace ↔
      stackNotFound w.stackProbeResponse = true := by
  have hloop := (pollLoop_no_deploys w.buildStatuses fuel 0).1
  have hboot : WorkflowAction.cdkDeployRegistryOnly ∈ bootstrapActions w.stackProbeResponse ↔
      stackNotFound w.stackProbeResponse = true := by
    unfold bootstrapActions
    split
    · next hsn => simp [hsn]
    · next hsn => simp [hsn]
  unfold runVariantB
  split
  · simp [List.mem_append, hboot]
  · split
    · simp [preActions, List.mem_append, hboot, hloop]
    · simp [preActions, List.mem_append, hboot, hloop]
    · simp [preActions, List.mem_append, hboot, hloop, serviceReport]
      split <;> simp

/-- C6: when the retrieved repository URI is empty or the sentinel None, the
workflow halts with exit code 1 before the remote build submission and before
the full-stack deploy. -/
theorem C6_missing_repo_uri_halts (w : BuildWorld) (fuel : Nat)
    (h : w.repositoryUri = "None" ∨ w.repositoryUri = "") :
    (runVariantB w fuel).exitCode = some 1 ∧
    WorkflowAction.startRemoteBuild ∉ (runVariantB w fuel).trace ∧
    WorkflowAction.cdkDeployFullStack ∉ (runVariantB w fuel).trace := by
  unfold runVariantB
  rw [if_pos h]
  refine ⟨rfl, ?_, ?_⟩ <;> intro hm <;>
    cases hsn : stackNotFound w.stackProbeResponse <;>
    simp [bootstrapActions, hsn] at hm

/-- C6 witness: on the world whose repository URI query returns None the run
exits 1 without building or deploying the full stack. -/
theorem C6_witness :
    (runVariantB noRepoWorld 3).exitCode = some 1 ∧
    WorkflowAction.startRemoteBuild ∉ (runVariantB noRepoWorld 3).trace ∧
    WorkflowAction.cdkDeployFullStack ∉ (runVariantB noRepoWorld 3).trace :=
  C6_missing_repo_uri_halts noRepoWorld 3 (Or.inl rfl)

/-- C7: when the polled build reaches a non-success terminal status, the
workflow exits 1 and the full-stack deploy is never executed in that run. -/
theorem C7_failed_build_blocks_full_deploy (w : BuildWorld) (fuel : Nat) (st : String)
    (h1 : w.repositoryUri ≠ "None") (h2 : w.repositoryUri ≠ "")
    (h3 : (pollLoop w.buildStatuses 0 fuel).2 = PollResult.failure st) :
    (runVariantB w fuel).exitCode = some 1 ∧
    WorkflowAction.cdkDeployFullStack ∉ (runVariantB w fuel).trace := by
  have hloop := (pollLoop_no_deploys w.buildStatuses fuel 0).2.1
  unfold runVariantB
  rw [if_neg (by tauto), h3]
  refine ⟨rfl, ?_⟩
  intro hm
  rcases List.mem_append.1 hm with hp | hl
  · rcases mem_preActions w _ hp with h | h | ⟨m, h⟩ <;> simp at h
  · exact hloop hl

/-- C7 witness: on the world whose first status query returns FAILED the run
exits 1 and never performs the full-stack deploy. -/
theorem C7_witness :
    (runVariantB failWorld 2).exitCode = some 1 ∧
    WorkflowAction.cdkDeployFullStack ∉ (runVariantB failWorld 2).trace :=
  C7_failed_build_blocks_full_deploy failWorld 2 "FAILED" (by decide) (by decide) (by decide)

/-- C8: a run that reaches the result report exits 0 whatever the service-URL
query returned, and when that output is empty or the sentinel None only the
informational note is printed. -/
theorem C8_missing_service_url_ok (w : BuildWorld) (fuel : Nat)
    (h1 : w.repositoryUri ≠ "None") (h2 : w.repositoryUri ≠ "")
    (h3 : (pollLoop w.buildStatuses 0 fuel).2 = PollResult.success) :
    (runVariantB w fuel).exitCode = some 0 ∧
    (w.serviceUrlResponse = "" ∨ w.serviceUrlResponse = "None" →
      WorkflowAction.echo serviceUrlNote ∈ (runVariantB w fuel).trace) := by
  unfold runVariantB
  rw [if_neg (by tauto), h3]
  refine ⟨rfl, ?_⟩
  intro h4
  have hrep : serviceReport w.serviceUrlResponse = [WorkflowAction.echo serviceUrlNote] := by
    unfold serviceReport
    rw [if_neg (by tauto)]
  simp [hrep, List.mem_append]

/-- C8 witness: on the world whose build succeeds and whose service-URL query
returns the empty string, the run exits 0 and prints the informational note. -/
theorem C8_witness :
    (runVariantB okWorld 1).exitCode = some 0 ∧
    WorkflowAction.echo serviceUrlNote ∈ (runVariantB okWorld 1).trace := by
  have h := C8_missing_service_url_ok okWorld 1 (by decide) (by decide) (by decide)
  exact ⟨h.1, h.2 (Or.inl rfl)⟩

/-- C2: the claim fails and the code is the slip: for the explicit
environment dev the entry point hardcodes createService to true, so the
bootstrap deploy that passes the context createService=false still
synthesizes the FastApiRunner-dev stack with the App Runner service, its IAM
roles and the ServiceUrl and ServiceId outputs, instead of the registry
alone. -/
theorem C2_dev_bootstrap_still_declares_service :
    (appStacks devBootstrapContext none).length = 2 ∧
    ((appStacks devBootstrapContext none).getD 0 default).1 = "FastApiRunner-dev" ∧
    ((appStacks devBootstrapContext none).getD 0 default).2.service.isSome = true ∧
    ((appStacks devBootstrapContext none).getD 0 default).2.hasInstanceRole = true ∧
    ((appStacks devBootstrapContext none).getD 0 default).2.hasAccessRole = true ∧
    ((appStacks devBootstrapContext none).getD 0 default).2.outputKeys =
      ["ServiceUrl", "ServiceId", "RepositoryUri"] := by
  decide

/-- C4: without an explicit environment argument the resolved environment is
preview- plus the user identity when identity resolution succeeds and the
literal preview-local otherwise; a non-empty explicit argument always takes
precedence. -/
theorem C4_environment_resolution (identity : Option String) (u e : String) :
    (identity = some u → resolveEnvironment none identity = "preview-" ++ u) ∧
    (identity = none → resolveEnvironment none identity = "preview-local") ∧
    (e ≠ "" → resolveEnvironment (some e) identity = e) := by
  refine ⟨?_, ?_, ?_⟩
  · intro h
    subst h
    rfl
  · intro h
    subst h
    rfl
  · intro h
    simp [resolveEnvironment, jsOrElse, h]

/-- C4 witness: concrete resolutions for a known identity, a failed identity
resolution and an explicit argument. -/
theorem C4_witness :
    resolveEnvironment none (some "alice") = "preview-alice" ∧
    resolveEnvironment none none = "preview-local" ∧
    resolveEnvironment (some "dev") (some "alice") = "dev" :=
  ⟨(C4_environment_resolution (some "alice") "alice" "dev").1 rfl,
    (C4_environment_resolution none "alice" "dev").2.1 rfl,
    (C4_environment_resolution (some "alice") "alice" "dev").2.2 (by decide)⟩

/-- C5: the claim that only ENVIRONMENT and PORT runtime variables are set is
false: the entry point always passes NODE_ENV and LOG_LEVEL through the
environmentVariables prop, so the secret-free preview synthesis carries four
runtime variables. -/
theorem C5_counterexample :
    serviceEnvNames ((appStacks previewNoSecretsContext none).getD 0 default).2 =
      ["ENVIRONMENT", "PORT", "NODE_ENV", "LOG_LEVEL"] ∧
    serviceEnvNames ((appStacks previewNoSecretsContext none).getD 0 default).2 ≠
      ["ENVIRONMENT", "PORT"] := by
  decide

/-- C5 (amended): when the secret ARN parameter is absent (or empty) and the
service is created, the service declaration has no runtimeEnvironmentSecrets
block and its runtime variables are exactly ENVIRONMENT and PORT followed by
the entries of the environmentVariables prop (NODE_ENV and LOG_LEVEL as
wired by the entry point). -/
theorem C5_no_secrets_amended (id : String) (props : AppRunnerStackProps)
    (hs : truthyArn props.secretsArn = false) (hc : props.createService = true) :
    (appRunnerStack id props).service = some (serviceDeclOf id props) ∧
    (serviceDeclOf id props).runtimeEnvironmentSecrets = none ∧
    (serviceDeclOf id props).runtimeEnvironmentVariables =
      EnvVar.mk "ENVIRONMENT" props.environment ::
        EnvVar.mk "PORT" (toString props.port) :: props.environmentVariables := by
  refine ⟨by simp [appRunnerStack, hc], ?_, rfl⟩
  unfold serviceDeclOf
  cases hA : props.secretsArn with
  | none => rfl
  | some s =>
    rw [hA] at hs
    simp [truthyArn] at hs
    simp [hA, hs]

/-- C5 witness: the preview stack props wired by the entry point without a
secrets ARN yield a service with no secrets block and the four runtime
variables. -/
theorem C5_witness :
    (appRunnerStack "FastApiRunner-preview-ci" previewProps).service =
      some (serviceDeclOf "FastApiRunner-preview-ci" previewProps) ∧
    (serviceDeclOf "FastApiRunner-preview-ci" previewProps).runtimeEnvironmentSecrets = none ∧
    (serviceDeclOf "FastApiRunner-preview-ci" previewProps).runtimeEnvironmentVariables =
      EnvVar.mk "ENVIRONMENT" "preview-ci" ::
        EnvVar.mk "PORT" "8080" :: defaultAppEnvironmentVariables :=
  C5_no_secrets_amended "FastApiRunner-preview-ci" previewProps rfl rfl

/-- C10: every AppRunnerStack instantiation contains the ECR repository named
by the lowercased stack id with the keep-25-images rule and emits the
RepositoryUri output; when createService is false the serviceUrl field stays
empty, no service is declared and no ServiceUrl or ServiceId output exists. -/
theorem C10_stack_invariants (id : String) (props : AppRunnerStackProps) :
    (appRunnerStack id props).repositoryName = lowerString id ∧
    (appRunnerStack id props).repositoryMaxImageCount = 25 ∧
    "RepositoryUri" ∈ (appRunnerStack id props).outputKeys ∧
    (props.createService = false →
      (appRunnerStack id props).serviceUrl = "" ∧
      (appRunnerStack id props).service = none ∧
      "ServiceUrl" ∉ (appRunnerStack id props).outputKeys ∧
      "ServiceId" ∉ (appRunnerStack id props).outputKeys) := by
  cases hc : props.createService
  · refine ⟨by simp [appRunnerStack, hc], by simp [appRunnerStack, hc],
      by simp [appRunnerStack, hc], ?_⟩
    intro
    refine ⟨by simp [appRunnerStack, hc], by simp [appRunnerStack, hc], ?_, ?_⟩ <;>
      simp [appRunnerStack, hc]
  · refine ⟨by simp [appRunnerStack, hc], by simp [appRunnerStack, hc],
      by simp [appRunnerStack, hc], ?_⟩
    intro h
    exact Bool.noConfusion h

/-- C10 witness: a registry-only instantiation has the lowercased repository
name, the RepositoryUri output, an empty serviceUrl and no service. -/
theorem C10_witness :
    (appRunnerStack "FastApiRunner-dev" registryOnlyProps).repositoryName =
      "fastapirunner-dev" ∧
    (appRunnerStack "FastApiRunner-dev" registryOnlyProps).serviceUrl = "" ∧
    (appRunnerStack "FastApiRunner-dev" registryOnlyProps).service = none ∧
    "ServiceUrl" ∉ (appRunnerStack "FastApiRunner-dev" registryOnlyProps).outputKeys := by
  have h := C10_stack_invariants "FastApiRunner-dev" registryOnlyProps
  refine ⟨?_, (h.2.2.2 rfl).1, (h.2.2.2 rfl).2.1, (h.2.2.2 rfl).2.2.1⟩
  rw [h.1]
  decide
